import Mathlib

/-!
# Verification of `numba/types/cffi.py` (cffi type-bridge subsystem)

A shallow embedding of the five type classes of `numba/types/cffi.py`
(`CFFILibraryType`, `FFIType`, `CFFIStructInstanceType`, `CFFIPointer`,
`CFFIStructRefType`) together with proofs of the specified properties.

Python exceptions are modelled with `Except PyErr`; a method body that
cannot raise is embedded as a function that always returns `Except.ok`.
The external typing context (`typingctx.can_convert`) and the external
symbol resolver (`get_func_pointer` from `numba.typing.cffi_utils`) are
parameters of the embedding, since the source only consumes them.
-/

/-- The verdicts of `numba.typeconv.Conversion`.  The member called
`unsafe` in the Python enum is rendered `unsafeConv` here. -/
inductive Conversion where
  | exact
  | promote
  | safe
  | unsafeConv
deriving DecidableEq, Repr

/-- The fragment of numba's type universe the cffi module manipulates.

* `voidptr` is the canonical opaque pointer constant `types.voidptr`;
* `other` stands for any host type unrelated to this module;
* `structInstance cname` embeds `CFFIStructInstanceType` (its `cffi_type`
  is retained through the struct's `cname`);
* `cffiPointer dtype owning` embeds `CFFIPointer` with its two fields;
* `structRef dtype owning ptrtype` embeds `CFFIStructRefType`: the
  inherited `dtype` and `owning` fields plus the `ptrtype` back-reference
  stored by `CFFIStructRefType.__init__`.

Python type equality (`types.Type.__eq__`, class plus interning key) is
reflected by structural equality of this inductive: distinct constructors
model distinct Python classes. -/
inductive NType where
  | voidptr
  | other (tag : String)
  | structInstance (cname : String)
  | cffiPointer (dtype : NType) (owning : Bool)
  | structRef (dtype : NType) (owning : Bool) (ptrtype : NType)
deriving DecidableEq, Repr

/-- Python exceptions raised by this module.  The source only ever raises
`AttributeError` (directly in `get_func_pointer`, and indirectly in
`CFFILibraryType.__init__` when `re.match` returns `None` and `.group`
is taken on it). -/
inductive PyErr where
  | attributeError (msg : String)
deriving DecidableEq, Repr

/-- The external conversion context consumed by the module: the host
capability `typingctx.can_convert : (fromty, toty) -> Conversion or None`. -/
def ConversionCtx : Type := NType → NType → Option Conversion

/-- `isinstance(t, CFFIStructRefType)`: only the `structRef` constructor
embeds that class. -/
def isStructRef : NType → Bool
  | .structRef _ _ _ => true
  | _ => false

/-- `isinstance(t, CFFIStructInstanceType)`. -/
def isStructInstance : NType → Bool
  | .structInstance _ => true
  | _ => false

/-- The `.dtype` attribute of the pointer classes (`none` on types that
have no such attribute). -/
def NType.dtype : NType → Option NType
  | .cffiPointer d _ => some d
  | .structRef d _ _ => some d
  | _ => none

/-- `CFFIPointer.key`: the interning key `(self.dtype, self.owning)`
(source lines 67-69).  `CFFIStructRefType` inherits it unchanged. -/
def NType.key : NType → Option (NType × Bool)
  | .cffiPointer d o => some (d, o)
  | .structRef d o _ => some (d, o)
  | _ => none

/-- Modelled from the spec: numba type equality (`types.Type.__eq__`,
which lives outside `src/`) compares two instances of the same class by
their interning key; for `NativePointerType` the key is
`(pointee, ownership)` (`CFFIPointer.key`).  This predicate is that
equality restricted to two `CFFIPointer` instances. -/
def pointerTypeEqual (d1 : NType) (o1 : Bool) (d2 : NType) (o2 : Bool) : Bool :=
  decide (NType.key (.cffiPointer d1 o1) = NType.key (.cffiPointer d2 o2))

/-- `CFFIPointer.__init__(self, dtype, owning=False)`: records the pointee
and the ownership flag (source lines 61-65). -/
def CFFIPointer.init (dtype : NType) (owning : Bool := false) : NType :=
  .cffiPointer dtype owning

/-- `CFFIStructRefType.__init__(self, ptrtype)`: calls
`CFFIPointer.__init__(self, ptrtype.dtype)` — the `owning` argument is
omitted, so it defaults to `False` — then stores `ptrtype` as a
back-reference (source lines 76-79).  Reading `.dtype` off a non-pointer
argument would raise, hence the `Option`. -/
def CFFIStructRefType.init (ptrtype : NType) : Option NType :=
  (NType.dtype ptrtype).map (fun d => .structRef d false ptrtype)

namespace CFFIStructInstanceType

/-- `CFFIStructInstanceType.can_convert_to(self, typingctx, other)`
(source lines 51-53): returns `Conversion.safe` when
`other == types.voidptr`, otherwise falls off the end (returns `None`).
The body never raises and never touches `typingctx`. -/
def can_convert_to (_typingctx : ConversionCtx) (other : NType) :
    Except PyErr (Option Conversion) :=
  .ok (if other = .voidptr then some .safe else none)

/-- `CFFIStructInstanceType.can_convert_from(self, typeingctx, other)`
(source lines 55-57; the context parameter is spelled `typeingctx` in the
source): same body as `can_convert_to`, written out separately. -/
def can_convert_from (_typeingctx : ConversionCtx) (other : NType) :
    Except PyErr (Option Conversion) :=
  .ok (if other = .voidptr then some .safe else none)

end CFFIStructInstanceType

namespace CFFIStructRefType

/-- `CFFIStructRefType.can_convert_to(self, typingctx, other)` (source
lines 82-86): when `other` is a `CFFIStructRefType` or a
`CFFIStructInstanceType`, returns `typingctx.can_convert(self.dtype,
other)` — note: the whole type `other`, not `other.dtype`; otherwise
falls off the end (returns `None`).  `dtype` is the only field of `self`
the body reads. -/
def can_convert_to (typingctx : ConversionCtx) (dtype other : NType) :
    Except PyErr (Option Conversion) :=
  .ok (if isStructRef other || isStructInstance other
       then typingctx dtype other
       else none)

/-- `CFFIStructRefType.can_convert_from(self, typingctx, other)` (source
lines 88-92): textually the same body as `can_convert_to`, with the same
argument order `typingctx.can_convert(self.dtype, other)`. -/
def can_convert_from (typingctx : ConversionCtx) (dtype other : NType) :
    Except PyErr (Option Conversion) :=
  .ok (if isStructRef other || isStructInstance other
       then typingctx dtype other
       else none)

end CFFIStructRefType

/-- A signature, as returned by `get_call_signatures`; its structure is
irrelevant here because the list returned is always empty. -/
inductive Signature where
  | mk (tag : Nat)
deriving DecidableEq, Repr

/-- `FFIType`: records the `ffi` session object, embedded by the per-session
identity token `id(ffi)` that the source bakes into the type name. -/
structure FFIType where
  ffiId : Nat
deriving DecidableEq, Repr

/-- `FFIType.get_call_signatures(self)` (source lines 40-41): returns
`([], True)` regardless of `self`. -/
def FFIType.get_call_signatures (_self : FFIType) : List Signature × Bool :=
  ([], true)

/-- The apostrophe character (codepoint 39), as it appears in the regex
pattern of `CFFILibraryType.__init__`. -/
def quoteChar : Char := Char.ofNat 39

/-- Drops `p` from the front of `s`; `none` when `p` is not a prefix. -/
def dropPre : List Char → List Char → Option (List Char)
  | [], rest => some rest
  | _ :: _, [] => none
  | p :: ps, c :: cs => if p = c then dropPre ps cs else none

/-- Splits a character list at the first apostrophe: returns the part
before it and the part after it, `none` when no apostrophe occurs.  This
is exactly how the greedy sub-pattern of apostrophe-free characters
consumes input: it can never cross an apostrophe, so it ends at the
first one. -/
def splitAtQuote : List Char → Option (List Char × List Char)
  | [] => none
  | c :: cs =>
    if c = quoteChar then some ([], cs)
    else match splitAtQuote cs with
      | some (g, rest) => some (c :: g, rest)
      | none => none

/-- `re.match` of the pattern used by `CFFILibraryType.__init__` against
`str(lib)`, returning group 1.  The pattern is: the literal text
`<Lib object for ` followed by an apostrophe, then one or more
non-apostrophe characters (group 1, greedy), then an apostrophe and `>`.
`re.match` anchors at the start of the string only, so trailing
characters after the `>` are permitted. -/
def parseLibName (s : String) : Option String :=
  match dropPre ("<Lib object for ".data ++ [quoteChar]) s.data with
  | none => none
  | some rest =>
    match splitAtQuote rest with
    | none => none
    | some (g, rest2) =>
      if g = [] then none
      else match rest2 with
        | c :: _ => if c = '>' then some (String.mk g) else none
        | [] => none

/-- A cffi library object, as consumed by `CFFILibraryType.__init__`:
an enumerable set of attributes, each either a compiled native function
wrapper (`BuiltinFunctionType`) or not, plus the object's default
textual representation `str(lib)`. -/
structure LibObject where
  attrs : List (String × Bool)
  strRepr : String
deriving DecidableEq, Repr

/-- The names in `dir(lib)` bound to `BuiltinFunctionType` values: the
set `CFFILibraryType.__init__` records as `self._func_names`. -/
def LibObject.exportedFuncs (lib : LibObject) : List String :=
  (lib.attrs.filter (fun a => a.2)).map (fun a => a.1)

/-- The state a successfully constructed `CFFILibraryType` carries. -/
structure CFFILibraryType where
  func_names : List String
  lib_name : String
  name : String
deriving DecidableEq, Repr

/-- `CFFILibraryType.__init__(self, lib)` (source lines 13-19): records
the exported-function set, then matches `str(lib)` against the fixed
pattern.  When the pattern does not match, `re.match` returns `None` and
taking `.group(1)` on it raises `AttributeError` (the failure the spec
calls `LibraryNameFormatError`); otherwise the quoted group becomes
`self._lib_name` and the display name is `cffi_lib<` + name + `>`. -/
def CFFILibraryType.init (lib : LibObject) : Except PyErr CFFILibraryType :=
  match parseLibName lib.strRepr with
  | none => .error (.attributeError "NoneType object has no attribute group")
  | some nm => .ok ⟨lib.exportedFuncs, nm, "cffi_lib<" ++ nm ++ ">"⟩

/-- `CFFILibraryType.has_func(self, func_name)` (source lines 21-22):
membership in `self._func_names`. -/
def CFFILibraryType.has_func (self : CFFILibraryType) (func_name : String) : Bool :=
  self.func_names.contains func_name

/-- `CFFILibraryType.get_func_pointer(self, func_name)` (source lines
24-31): raises `AttributeError` naming the function and the library
(the spec's `FunctionNotFoundError`) when `func_name` is not in
`self._func_names`; otherwise returns the value produced by the external
symbol resolver `get_func_pointer` of `numba.typing.cffi_utils`, passed
here as the parameter `resolve`. -/
def CFFILibraryType.get_func_pointer {α : Type} (resolve : String → α)
    (self : CFFILibraryType) (func_name : String) : Except PyErr α :=
  if self.func_names.contains func_name then .ok (resolve func_name)
  else .error (.attributeError
    ("Function " ++ func_name ++ " is not present in the library " ++ self.lib_name))

instance exceptDecEq {ε α : Type} [DecidableEq ε] [DecidableEq α] :
    DecidableEq (Except ε α) := fun a b =>
  match a, b with
  | .ok x, .ok y =>
    if h : x = y then .isTrue (by rw [h]) else .isFalse (fun he => h (by cases he; rfl))
  | .error e, .error f =>
    if h : e = f then .isTrue (by rw [h]) else .isFalse (fun he => h (by cases he; rfl))
  | .ok _, .error _ => .isFalse (fun he => Except.noConfusion he)
  | .error _, .ok _ => .isFalse (fun he => Except.noConfusion he)

/-- A conversion context that answers `exact` on every pair. -/
def ctxAllExact : ConversionCtx := fun _ _ => some .exact

/-- A conversion context that answers `None` on every pair. -/
def ctxAllNone : ConversionCtx := fun _ _ => none

/-- A conversion context that distinguishes a struct-reference type from
its pointee: `unsafe` verdict when the target is a `CFFIStructRefType`,
`safe` verdict otherwise. -/
def ctxRefSensitive : ConversionCtx :=
  fun _ b => if isStructRef b then some .unsafeConv else some .safe

/-!
## The claims
-/

/-- Claim C1, counterexample.  The claim states that for a
`CFFIStructRefType` target `X`, `can_convert_to` returns the context's
verdict on `(self.dtype, X.pointee)`.  The code instead passes the whole
type `X` as the second argument (`typingctx.can_convert(self.dtype,
other)`), so a context that distinguishes `X` from `X.pointee` refutes
the claim: here `X = Ref#S` with pointee `S`, and the context
`ctxRefSensitive` answers `unsafe` on `(S, Ref#S)` but `safe` on
`(S, S)`. -/
theorem structRef_convert_pointee_counterexample :
    NType.dtype (.structRef (.structInstance "S") false
        (.cffiPointer (.structInstance "S") false)) = some (.structInstance "S") ∧
    CFFIStructRefType.can_convert_to ctxRefSensitive (.structInstance "S")
        (.structRef (.structInstance "S") false (.cffiPointer (.structInstance "S") false)) ≠
      .ok (ctxRefSensitive (.structInstance "S") (.structInstance "S")) := by
  decide

/-- Claim C1, amended.  For every `CFFIStructRefType` with pointee `P`
and every type `other` that is a `CFFIStructRefType` or a
`CFFIStructInstanceType`, `can_convert_to` and `can_convert_from` return
exactly the verdict `ConversionContext.can_convert(P, other)` — the
whole type `other`, not `other.pointee`; for every `other` that is
neither, they return the no-conversion verdict `None` and the result is
independent of the conversion context (the context is never invoked). -/
theorem structRef_convert_delegates_whole_other
    (ctx ctx2 : ConversionCtx) (P other : NType) :
    ((isStructRef other || isStructInstance other) = true →
      CFFIStructRefType.can_convert_to ctx P other = .ok (ctx P other) ∧
      CFFIStructRefType.can_convert_from ctx P other = .ok (ctx P other)) ∧
    ((isStructRef other || isStructInstance other) = false →
      CFFIStructRefType.can_convert_to ctx P other = .ok none ∧
      CFFIStructRefType.can_convert_from ctx P other = .ok none ∧
      CFFIStructRefType.can_convert_to ctx P other =
        CFFIStructRefType.can_convert_to ctx2 P other) := by
  unfold CFFIStructRefType.can_convert_to CFFIStructRefType.can_convert_from
  constructor
  · intro h
    rw [h]
    exact ⟨rfl, rfl⟩
  · intro h
    rw [h]
    exact ⟨rfl, rfl, rfl⟩

/-- Witness for `structRef_convert_delegates_whole_other` at concrete
inputs: a struct-instance target takes the context's verdict, an
unrelated target gets `None`. -/
theorem structRef_convert_delegates_whole_other_witness :
    CFFIStructRefType.can_convert_to ctxAllExact (.structInstance "P") (.structInstance "T") =
      .ok (ctxAllExact (.structInstance "P") (.structInstance "T")) ∧
    CFFIStructRefType.can_convert_to ctxAllExact (.structInstance "P") (.other "U") =
      .ok none :=
  ⟨((structRef_convert_delegates_whole_other ctxAllExact ctxAllNone
      (.structInstance "P") (.structInstance "T")).1 (by decide)).1,
   ((structRef_convert_delegates_whole_other ctxAllExact ctxAllNone
      (.structInstance "P") (.other "U")).2 (by decide)).1⟩

/-- Claim C2: `CFFIStructInstanceType.can_convert_to` returns the safe
verdict exactly when the target is `types.voidptr`, and the
no-conversion verdict `None` on every other target; `can_convert_from`
obeys the same rule. -/
theorem structInstance_convert_voidptr_only (ctx : ConversionCtx) (other : NType) :
    (CFFIStructInstanceType.can_convert_to ctx other = .ok (some .safe) ↔
      other = .voidptr) ∧
    (other ≠ .voidptr → CFFIStructInstanceType.can_convert_to ctx other = .ok none) ∧
    (CFFIStructInstanceType.can_convert_from ctx other = .ok (some .safe) ↔
      other = .voidptr) ∧
    (other ≠ .voidptr → CFFIStructInstanceType.can_convert_from ctx other = .ok none) := by
  unfold CFFIStructInstanceType.can_convert_to CFFIStructInstanceType.can_convert_from
  by_cases h : other = .voidptr <;> simp [h]

/-- Witness for `structInstance_convert_voidptr_only`: the safe verdict
at `voidptr`, the `None` verdict at an unrelated type. -/
theorem structInstance_convert_voidptr_only_witness :
    CFFIStructInstanceType.can_convert_to ctxAllNone .voidptr = .ok (some .safe) ∧
    CFFIStructInstanceType.can_convert_to ctxAllNone (.other "T") = .ok none :=
  ⟨(structInstance_convert_voidptr_only ctxAllNone .voidptr).1.mpr rfl,
   (structInstance_convert_voidptr_only ctxAllNone (.other "T")).2.1 (by decide)⟩

/-- Claim C3: two `CFFIPointer` instances with equal `(pointee,
ownership)` pairs compare type-equal, and two with the same pointee but
different ownership flags compare type-unequal.  Type equality is
`pointerTypeEqual`, the key comparison of `types.Type.__eq__` applied to
`CFFIPointer.key`. -/
theorem cffiPointer_key_equality (d1 d2 : NType) (o1 o2 : Bool) :
    ((d1, o1) = (d2, o2) → pointerTypeEqual d1 o1 d2 o2 = true) ∧
    (d1 = d2 → o1 ≠ o2 → pointerTypeEqual d1 o1 d2 o2 = false) := by
  constructor
  · intro h
    obtain ⟨h1, h2⟩ := Prod.mk.injEq .. ▸ h
    simp [pointerTypeEqual, NType.key, h1, h2]
  · intro h1 h2
    simp [pointerTypeEqual, NType.key, h1]
    exact fun he => absurd he h2

/-- Witness for `cffiPointer_key_equality`: pointers to the struct `S`,
equal when both borrowed, unequal when the ownership flags differ. -/
theorem cffiPointer_key_equality_witness :
    pointerTypeEqual (.structInstance "S") false (.structInstance "S") false = true ∧
    pointerTypeEqual (.structInstance "S") false (.structInstance "S") true = false :=
  ⟨(cffiPointer_key_equality (.structInstance "S") (.structInstance "S") false false).1 rfl,
   (cffiPointer_key_equality (.structInstance "S") (.structInstance "S") false true).2
     rfl (by decide)⟩

/-- Claim C4: after a successful construction, `has_func n` holds exactly
when `n` is among the library attributes recorded as native functions at
construction; `get_func_pointer` fails with the error naming the
function and the library exactly when `has_func n` is false, and
otherwise returns the external resolver's value for `n`. -/
theorem library_has_func_get_func_pointer {α : Type} (resolve : String → α)
    (lib : LibObject) (L : CFFILibraryType) (n : String)
    (h : CFFILibraryType.init lib = .ok L) :
    (L.has_func n = true ↔ n ∈ lib.exportedFuncs) ∧
    (L.has_func n = false →
      CFFILibraryType.get_func_pointer resolve L n = .error (.attributeError
        ("Function " ++ n ++ " is not present in the library " ++ L.lib_name))) ∧
    (L.has_func n = true →
      CFFILibraryType.get_func_pointer resolve L n = .ok (resolve n)) := by
  have hfn : L.func_names = lib.exportedFuncs := by
    unfold CFFILibraryType.init at h
    cases hp : parseLibName lib.strRepr with
    | none => rw [hp] at h; exact absurd h (by simp)
    | some nm => rw [hp] at h; cases h; rfl
  refine ⟨?_, ?_, ?_⟩
  · rw [← hfn]
    simp [CFFILibraryType.has_func, List.elem_iff]
  · intro hn
    unfold CFFILibraryType.get_func_pointer
    unfold CFFILibraryType.has_func at hn
    rw [hn]
    rfl
  · intro hn
    unfold CFFILibraryType.get_func_pointer
    unfold CFFILibraryType.has_func at hn
    rw [hn]
    rfl

/-- Witness for `library_has_func_get_func_pointer`: a mock library with
representation `<Lib object for (quote)mathlib(quote)>` exporting `sin`
and `cos` next to a non-function attribute `version`. -/
theorem library_has_func_get_func_pointer_witness :
    ((⟨["sin", "cos"], "mathlib", "cffi_lib<mathlib>"⟩ : CFFILibraryType).has_func "tan" = true ↔
      "tan" ∈ LibObject.exportedFuncs ⟨[("sin", true), ("cos", true), ("version", false)],
        "<Lib object for " ++ String.mk [quoteChar] ++ "mathlib" ++
          String.mk [quoteChar] ++ ">"⟩) ∧
    ((⟨["sin", "cos"], "mathlib", "cffi_lib<mathlib>"⟩ : CFFILibraryType).has_func "tan" = false →
      CFFILibraryType.get_func_pointer String.length
          ⟨["sin", "cos"], "mathlib", "cffi_lib<mathlib>"⟩ "tan" = .error (.attributeError
        ("Function " ++ "tan" ++ " is not present in the library " ++ "mathlib"))) ∧
    ((⟨["sin", "cos"], "mathlib", "cffi_lib<mathlib>"⟩ : CFFILibraryType).has_func "tan" = true →
      CFFILibraryType.get_func_pointer String.length
          ⟨["sin", "cos"], "mathlib", "cffi_lib<mathlib>"⟩ "tan" = .ok ("tan".length)) :=
  library_has_func_get_func_pointer String.length
    ⟨[("sin", true), ("cos", true), ("version", false)],
      "<Lib object for " ++ String.mk [quoteChar] ++ "mathlib" ++ String.mk [quoteChar] ++ ">"⟩
    ⟨["sin", "cos"], "mathlib", "cffi_lib<mathlib>"⟩ "tan" (by decide)

/-- Claim C5: when the library object's textual representation does not
match the fixed pattern (the regex match yields no result),
`CFFILibraryType.__init__` fails with the construction-time error the
spec calls `LibraryNameFormatError` (concretely, the `AttributeError`
raised by taking `.group(1)` of `None`). -/
theorem library_init_fails_without_pattern (lib : LibObject)
    (h : parseLibName lib.strRepr = none) :
    CFFILibraryType.init lib =
      .error (.attributeError "NoneType object has no attribute group") := by
  unfold CFFILibraryType.init
  rw [h]

/-- Witness for `library_init_fails_without_pattern`: a library object
whose representation is the non-matching string `bogus`. -/
theorem library_init_fails_without_pattern_witness :
    parseLibName "bogus" = none ∧
    CFFILibraryType.init ⟨[], "bogus"⟩ =
      .error (.attributeError "NoneType object has no attribute group") :=
  ⟨by decide, library_init_fails_without_pattern ⟨[], "bogus"⟩ (by decide)⟩

/-- Claim C6: for every library object whose textual representation is
`<Lib object for (quote)libfoo(quote)>`, construction succeeds and the
recorded canonical library name is `libfoo`. -/
theorem library_init_records_libfoo (attrs : List (String × Bool)) :
    ∃ L, CFFILibraryType.init ⟨attrs,
        "<Lib object for " ++ String.mk [quoteChar] ++ "libfoo" ++
          String.mk [quoteChar] ++ ">"⟩ = .ok L ∧
      L.lib_name = "libfoo" := by
  unfold CFFILibraryType.init
  rw [show parseLibName ("<Lib object for " ++ String.mk [quoteChar] ++ "libfoo" ++
    String.mk [quoteChar] ++ ">") = some "libfoo" from by decide]
  exact ⟨_, rfl, rfl⟩

/-- Claim C7: the four conversion queries of `CFFIStructInstanceType` and
`CFFIStructRefType` always return normally (`Except.ok`): a negative
answer is delivered as the value `None`, never as a raised exception. -/
theorem conversion_queries_never_raise (ctx : ConversionCtx) (P other : NType) :
    (∃ v, CFFIStructInstanceType.can_convert_to ctx other = .ok v) ∧
    (∃ v, CFFIStructInstanceType.can_convert_from ctx other = .ok v) ∧
    (∃ v, CFFIStructRefType.can_convert_to ctx P other = .ok v) ∧
    (∃ v, CFFIStructRefType.can_convert_from ctx P other = .ok v) :=
  ⟨⟨_, rfl⟩, ⟨_, rfl⟩, ⟨_, rfl⟩, ⟨_, rfl⟩⟩

/-- Claim C8: `FFIType.get_call_signatures` returns the empty sequence of
signatures paired with the variadic flag `true`, on every `FFIType`
instance. -/
theorem ffiType_call_signatures_empty_variadic (t : FFIType) :
    FFIType.get_call_signatures t = ([], true) ∧
    (FFIType.get_call_signatures t).1 = [] ∧
    (FFIType.get_call_signatures t).2 = true :=
  ⟨rfl, rfl, rfl⟩

/-- Claim C9: constructing a `CFFIStructRefType` from any `CFFIPointer` —
owning or not — always yields a type whose ownership flag is `false`,
because `CFFIStructRefType.__init__` forwards only `ptrtype.dtype` and
lets `owning` default to `False`; hence the resulting interning key is
`(pointee, borrowed)` regardless of the source pointer's flag. -/
theorem structRef_init_always_borrowed (d : NType) (o : Bool) :
    CFFIStructRefType.init (CFFIPointer.init d o) =
      some (.structRef d false (.cffiPointer d o)) ∧
    (CFFIStructRefType.init (CFFIPointer.init d o)).bind NType.key = some (d, false) :=
  ⟨rfl, rfl⟩

/-- Claim C10: on `CFFIStructRefType`, `can_convert_to` and
`can_convert_from` are the same function: same type test on `other`,
same delegation `typingctx.can_convert(self.dtype, other)` with the same
argument order, for every context, pointee and target. -/
theorem structRef_convert_to_eq_convert_from (ctx : ConversionCtx) (P other : NType) :
    CFFIStructRefType.can_convert_to ctx P other =
      CFFIStructRefType.can_convert_from ctx P other :=
  rfl
